import Mathlib

/-!
Verification development for the ReshADX Python SDK
(`src/sdks/python/reshadx`).  The embedding covers the resilient HTTP
transport (`utils/http.py`), the error classes (`utils/errors.py`) and the
webhook signature routines (`resources/webhooks.py`).

Machine integers are modelled as `Nat` with explicit `% 2^w` where the
source wraps; fallible operations return `Option`.
-/

set_option autoImplicit false

namespace ReshADX

/-! ## JSON values

Model of the Python values produced by `json.loads`: `None`, `bool`, `int`,
`str`, `list`, `dict`.  Object fields are an association list with unique
keys (the parser overwrites duplicates, as Python dicts do).  JSON float
literals are outside the model (floating point is not embedded); the parser
rejects them. -/

inductive Json where
  | null : Json
  | bool (b : Bool) : Json
  | num (n : Int) : Json
  | str (s : String) : Json
  | arr (elems : List Json) : Json
  | obj (fields : List (String × Json)) : Json
deriving Repr

/-- Character constants, by code point: double quote, backslash,
left brace, right brace. -/
def quoteC : Char := Char.ofNat 34

def backslashC : Char := Char.ofNat 92

def lbraceC : Char := Char.ofNat 123

def rbraceC : Char := Char.ofNat 125

/-- JSON whitespace (as accepted by `json.loads`). -/
def isJsonWs (c : Char) : Bool :=
  c == ' ' || c == '\t' || c == '\n' || c == '\r'

def skipWs : List Char → List Char
  | [] => []
  | c :: rest => if isJsonWs c then skipWs rest else c :: rest

/-- Python dict insertion used while building an object: an existing key is
overwritten in place, a new key is appended. -/
def updatePair (l : List (String × Json)) (k : String) (v : Json) :
    List (String × Json) :=
  if (List.lookup k l).isSome then
    l.map (fun p => if p.1 = k then (k, v) else p)
  else
    l ++ [(k, v)]

/-- Hex digit value, `none` when not a hex digit. -/
def hexVal (c : Char) : Option Nat :=
  if '0' ≤ c && c ≤ '9' then some (c.toNat - 48)
  else if 'a' ≤ c && c ≤ 'f' then some (c.toNat - 87)
  else if 'A' ≤ c && c ≤ 'F' then some (c.toNat - 70)
  else none

/-- Parse the body of a JSON string literal (after the opening quote),
handling the escapes `json.loads` accepts.  `\uXXXX` surrogate pairs are
combined; a lone surrogate is rejected (Lean strings cannot hold one). -/
def parseStrBody : List Char → List Char → Option (String × List Char)
  | acc, c :: rest =>
    if c == quoteC then some (String.mk acc.reverse, rest)
    else if c == backslashC then
      match rest with
      | [] => none
      | e :: rest2 =>
        if e == quoteC then parseStrBody (quoteC :: acc) rest2
        else if e == backslashC then parseStrBody (backslashC :: acc) rest2
        else if e == '/' then parseStrBody ('/' :: acc) rest2
        else if e == 'b' then parseStrBody (Char.ofNat 8 :: acc) rest2
        else if e == 'f' then parseStrBody (Char.ofNat 12 :: acc) rest2
        else if e == 'n' then parseStrBody ('\n' :: acc) rest2
        else if e == 'r' then parseStrBody ('\r' :: acc) rest2
        else if e == 't' then parseStrBody ('\t' :: acc) rest2
        else if e == 'u' then
          match rest2 with
          | h1 :: h2 :: h3 :: h4 :: rest3 =>
            match hexVal h1, hexVal h2, hexVal h3, hexVal h4 with
            | some a, some b, some c2, some d =>
              let n := ((a * 16 + b) * 16 + c2) * 16 + d
              if 55296 ≤ n && n ≤ 56319 then
                -- high surrogate: require a following low surrogate
                match rest3 with
                | b1 :: u :: h5 :: h6 :: h7 :: h8 :: rest4 =>
                  if b1 == backslashC && u == 'u' then
                    match hexVal h5, hexVal h6, hexVal h7, hexVal h8 with
                    | some a2, some b2, some c3, some d2 =>
                      let m := ((a2 * 16 + b2) * 16 + c3) * 16 + d2
                      if 56320 ≤ m && m ≤ 57343 then
                        let cp := 65536 + (n - 55296) * 1024 + (m - 56320)
                        parseStrBody (Char.ofNat cp :: acc) rest4
                      else none
                    | _, _, _, _ => none
                  else none
                | _ => none
              else if 56320 ≤ n && n ≤ 57343 then none
              else parseStrBody (Char.ofNat n :: acc) rest3
            | _, _, _, _ => none
          | _ => none
        else none
    else if c.toNat < 32 then none  -- strict mode rejects raw control chars
    else parseStrBody (c :: acc) rest
  | _, [] => none

/-- Digits at the front of the input, value accumulated. -/
def takeDigits : List Char → Nat → Nat × List Char
  | c :: rest, acc =>
    if c.isDigit then takeDigits rest (acc * 10 + (c.toNat - 48))
    else (acc, c :: rest)
  | [], acc => (acc, [])

/-- Parse a JSON integer literal (sign and digits).  Fraction and exponent
parts (floats) are outside the model and make the parse fail. -/
def parseIntLit (cs : List Char) : Option (Int × List Char) :=
  let (neg, cs1) :=
    match cs with
    | c :: rest => if c == '-' then (true, rest) else (false, cs)
    | [] => (false, cs)
  match cs1 with
  | c :: _ =>
    if c.isDigit then
      let (n, rest) := takeDigits cs1 0
      -- reject leading zeros, floats and exponents
      if c == '0' && (match cs1 with
          | _ :: d :: _ => d.isDigit
          | _ => false) then none
      else
        match rest with
        | d :: _ =>
          if d == '.' || d == 'e' || d == 'E' then none
          else some (if neg then -(n : Int) else (n : Int), rest)
        | [] => some (if neg then -(n : Int) else (n : Int), rest)
    else none
  | [] => none

mutual

/-- Fuel-based JSON value parser, mirroring the grammar `json.loads`
accepts (minus float literals). -/
def parseVal : Nat → List Char → Option (Json × List Char)
  | 0, _ => none
  | fuel + 1, cs =>
    match skipWs cs with
    | [] => none
    | c :: rest =>
      if c == 'n' then
        match rest with
        | 'u' :: 'l' :: 'l' :: rest2 => some (Json.null, rest2)
        | _ => none
      else if c == 't' then
        match rest with
        | 'r' :: 'u' :: 'e' :: rest2 => some (Json.bool true, rest2)
        | _ => none
      else if c == 'f' then
        match rest with
        | 'a' :: 'l' :: 's' :: 'e' :: rest2 => some (Json.bool false, rest2)
        | _ => none
      else if c == quoteC then
        match parseStrBody [] rest with
        | some (s, rest2) => some (Json.str s, rest2)
        | none => none
      else if c == '[' then
        match skipWs rest with
        | ']' :: rest2 => some (Json.arr [], rest2)
        | cs2 => parseElems fuel [] cs2
      else if c == lbraceC then
        match skipWs rest with
        | d :: rest2 =>
          if d == rbraceC then some (Json.obj [], rest2)
          else parseFields fuel [] (d :: rest2)
        | [] => none
      else
        match parseIntLit (c :: rest) with
        | some (n, rest2) => some (Json.num n, rest2)
        | none => none

/-- Comma-separated array elements up to the closing bracket. -/
def parseElems : Nat → List Json → List Char → Option (Json × List Char)
  | 0, _, _ => none
  | fuel + 1, acc, cs =>
    match parseVal fuel cs with
    | none => none
    | some (v, rest) =>
      match skipWs rest with
      | ',' :: rest2 => parseElems fuel (v :: acc) rest2
      | ']' :: rest2 => some (Json.arr (v :: acc).reverse, rest2)
      | _ => none

/-- Comma-separated `"key": value` fields up to the closing brace. -/
def parseFields : Nat → List (String × Json) → List Char →
    Option (Json × List Char)
  | 0, _, _ => none
  | fuel + 1, acc, cs =>
    match skipWs cs with
    | c :: rest =>
      if c == quoteC then
        match parseStrBody [] rest with
        | none => none
        | some (k, rest2) =>
          match skipWs rest2 with
          | ':' :: rest3 =>
            match parseVal fuel rest3 with
            | none => none
            | some (v, rest4) =>
              let acc2 := updatePair acc k v
              match skipWs rest4 with
              | ',' :: rest5 => parseFields fuel acc2 rest5
              | d :: rest5 =>
                if d == rbraceC then some (Json.obj acc2, rest5) else none
              | [] => none
          | _ => none
      else none
    | [] => none

end

/-- Modelled from the spec: `json.loads` from the Python standard library
(the spec speaks of bodies that are or are not "valid JSON"); the decoder
itself is not part of this repository.  Whole-input decode: trailing
whitespace allowed, trailing junk rejected, float literals not modelled. -/
def jsonLoads (s : String) : Option Json :=
  match parseVal (2 * s.length + 2) s.data with
  | some (j, rest) => if (skipWs rest).isEmpty then some j else none
  | none => none

/-! ## SHA-256 and HMAC

Modelled from the spec: `resources/webhooks.py` calls
`hmac.new(secret, payload, hashlib.sha256).hexdigest()` from the Python
standard library ("computes an HMAC (secret-key hashing) over the raw
payload bytes using a cryptographic hash function, hex-encodes it"); the
hash itself is not part of this repository, so SHA-256 (FIPS 180-4) and
HMAC (RFC 2104) are embedded here directly.  Words are `Nat` reduced
mod 2^32, bytes are `Nat` below 256. -/

def w32 : Nat := 4294967296

def add32 (a b : Nat) : Nat := (a + b) % w32

def xor32 (a b : Nat) : Nat := Nat.xor a b

def rotr32 (n x : Nat) : Nat :=
  (Nat.shiftRight x n + Nat.shiftLeft x (32 - n)) % w32

def shr32 (n x : Nat) : Nat := Nat.shiftRight x n

def bigSigma0 (x : Nat) : Nat := xor32 (rotr32 2 x) (xor32 (rotr32 13 x) (rotr32 22 x))

def bigSigma1 (x : Nat) : Nat := xor32 (rotr32 6 x) (xor32 (rotr32 11 x) (rotr32 25 x))

def smallSigma0 (x : Nat) : Nat := xor32 (rotr32 7 x) (xor32 (rotr32 18 x) (shr32 3 x))

def smallSigma1 (x : Nat) : Nat := xor32 (rotr32 17 x) (xor32 (rotr32 19 x) (shr32 10 x))

def chFn (x y z : Nat) : Nat := xor32 (Nat.land x y) (Nat.land (4294967295 - x) z)

def majFn (x y z : Nat) : Nat :=
  xor32 (Nat.land x y) (xor32 (Nat.land x z) (Nat.land y z))

def sha256K : List Nat :=
  [1116352408, 1899447441, 3049323471, 3921009573, 961987163, 1508970993,
   2453635748, 2870763221, 3624381080, 310598401, 607225278, 1426881987,
   1925078388, 2162078206, 2614888103, 3248222580, 3835390401, 4022224774,
   264347078, 604807628, 770255983, 1249150122, 1555081692, 1996064986,
   2554220882, 2821834349, 2952996808, 3210313671, 3336571891, 3584528711,
   113926993, 338241895, 666307205, 773529912, 1294757372, 1396182291,
   1695183700, 1986661051, 2177026350, 2456956037, 2730485921, 2820302411,
   3259730800, 3345764771, 3516065817, 3600352804, 4094571909, 275423344,
   430227734, 506948616, 659060556, 883997877, 958139571, 1322822218,
   1537002063, 1747873779, 1955562222, 2024104815, 2227730452, 2361852424,
   2428436474, 2756734187, 3204031479, 3329325298]

def sha256H0 : List Nat :=
  [1779033703, 3144134277, 1013904242, 2773480762, 1359893119, 2600822924,
   528734635, 1541459225]

/-- `k` big-endian bytes of `n` (most significant first). -/
def beBytes : Nat → Nat → List Nat
  | 0, _ => []
  | k + 1, n => Nat.shiftRight n (8 * k) % 256 :: beBytes k n

/-- SHA-256 padding: append `0x80`, zeros to 56 mod 64, then the bit
length as 8 big-endian bytes. -/
def padMessage (msg : List Nat) : List Nat :=
  let len := msg.length
  let z := (120 - (len + 1) % 64) % 64
  msg ++ 128 :: List.replicate z 0 ++ beBytes 8 (8 * len)

/-- Split into 64-byte blocks (input length is a multiple of 64). -/
def chunks64 : Nat → List Nat → List (List Nat)
  | 0, _ => []
  | _ + 1, [] => []
  | fuel + 1, l => l.take 64 :: chunks64 fuel (l.drop 64)

/-- Big-endian 32-bit words from bytes. -/
def toWordsBE : List Nat → List Nat
  | a :: b :: c :: d :: rest => (((a * 256 + b) * 256 + c) * 256 + d) :: toWordsBE rest
  | _ => []

/-- Extend the 16-word block to the 64-word message schedule. -/
def extendSchedule : Nat → List Nat → List Nat
  | 0, w => w
  | s + 1, w =>
    let i := w.length
    let nw := add32 (add32 (smallSigma1 (w.getD (i - 2) 0)) (w.getD (i - 7) 0))
      (add32 (smallSigma0 (w.getD (i - 15) 0)) (w.getD (i - 16) 0))
    extendSchedule s (w ++ [nw])

/-- One round of the SHA-256 compression loop over `(K_i, W_i)` pairs. -/
def rounds : List (Nat × Nat) →
    Nat × Nat × Nat × Nat × Nat × Nat × Nat × Nat →
    Nat × Nat × Nat × Nat × Nat × Nat × Nat × Nat
  | [], st => st
  | (ki, wi) :: rest, (a, b, c, d, e, f, g, h) =>
    let t1 := add32 h (add32 (bigSigma1 e) (add32 (chFn e f g) (add32 ki wi)))
    let t2 := add32 (bigSigma0 a) (majFn a b c)
    rounds rest (add32 t1 t2, a, b, c, add32 d t1, e, f, g)

/-- Compress one 64-byte block into the running hash state. -/
def compressBlock (h : List Nat) (block : List Nat) : List Nat :=
  let w := extendSchedule 48 (toWordsBE block)
  let st := rounds (sha256K.zip w)
    (h.getD 0 0, h.getD 1 0, h.getD 2 0, h.getD 3 0, h.getD 4 0,
     h.getD 5 0, h.getD 6 0, h.getD 7 0)
  match st with
  | (a, b, c, d, e, f, g, hh) =>
    [add32 (h.getD 0 0) a, add32 (h.getD 1 0) b, add32 (h.getD 2 0) c,
     add32 (h.getD 3 0) d, add32 (h.getD 4 0) e, add32 (h.getD 5 0) f,
     add32 (h.getD 6 0) g, add32 (h.getD 7 0) hh]

/-- SHA-256 digest of a byte list, as 32 bytes. -/
def sha256 (msg : List Nat) : List Nat :=
  let padded := padMessage msg
  let final := (chunks64 padded.length padded).foldl compressBlock sha256H0
  final.flatMap (beBytes 4)

def hexDigitChar (n : Nat) : Char :=
  if n < 10 then Char.ofNat (48 + n) else Char.ofNat (87 + n)

/-- Lowercase hex of a byte list, as `hexdigest()` produces. -/
def bytesToHex (bs : List Nat) : String :=
  String.mk (bs.flatMap (fun b => [hexDigitChar (b / 16), hexDigitChar (b % 16)]))

/-- UTF-8 encoding of one character, per Python `str.encode("utf-8")`. -/
def utf8EncodeChar (c : Char) : List Nat :=
  let n := c.toNat
  if n < 128 then [n]
  else if n < 2048 then [192 + n / 64, 128 + n % 64]
  else if n < 65536 then [224 + n / 4096, 128 + n / 64 % 64, 128 + n % 64]
  else [240 + n / 262144, 128 + n / 4096 % 64, 128 + n / 64 % 64, 128 + n % 64]

def utf8Encode (s : String) : List Nat := s.data.flatMap utf8EncodeChar

/-- HMAC-SHA256 (RFC 2104) with 64-byte block size, as
`hmac.new(key, msg, hashlib.sha256)` computes. -/
def hmacSha256 (key msg : List Nat) : List Nat :=
  let k0 := if key.length > 64 then sha256 key else key
  let kb := k0 ++ List.replicate (64 - k0.length) 0
  let inner := sha256 (kb.map (fun b => Nat.xor b 54) ++ msg)
  sha256 (kb.map (fun b => Nat.xor b 92) ++ inner)

/-- The hex HMAC-SHA256 computed inside `Webhooks.verify_signature`:
`hmac.new(secret.encode("utf-8"), payload.encode("utf-8"),
hashlib.sha256).hexdigest()`. -/
def hmacSha256Hex (secret payload : String) : String :=
  bytesToHex (hmacSha256 (utf8Encode secret) (utf8Encode payload))

/-! ## Error classes (`utils/errors.py`) -/

/-- Python truthiness of a decoded JSON value (used by `details or {}` in
`ReshADXError.__init__`). -/
def pyTruthy : Json → Bool
  | Json.null => false
  | Json.bool b => b
  | Json.num n => n != 0
  | Json.str s => s.length != 0
  | Json.arr xs => xs.length != 0
  | Json.obj fs => fs.length != 0

/-- `ReshADXError` from `utils/errors.py` lines 6-26.  `message` and `code`
are kept as dynamic (JSON) values, since Python does not enforce the `str`
annotations on what the error envelope supplies. -/
structure ReshADXError where
  message : Json
  code : Json
  status_code : Nat
  details : Json
deriving Repr

/-- `ReshADXError.__init__`: stores `message`, `code`, `status_code` and
`details or {}` (a missing or falsy `details` becomes the empty dict). -/
def ReshADXError.make (message code : Json) (status_code : Nat)
    (details : Option Json) : ReshADXError :=
  ⟨message, code, status_code,
   match details with
   | some v => if pyTruthy v then v else Json.obj []
   | none => Json.obj []⟩

/-- `ServerError.__init__` (`utils/errors.py` lines 74-78): code
`SERVER_ERROR`, status code 500. -/
def serverErrorE (message : String) : ReshADXError :=
  ReshADXError.make (Json.str message) (Json.str "SERVER_ERROR") 500 none

/-! ## HTTP transport (`utils/http.py`) -/

/-- An HTTP response as the transport sees it: status code, the
`Retry-After` header value if present, and the body text. -/
structure Response where
  status : Nat
  retryAfter : Option Nat
  body : String
deriving Repr

/-- Outcome of one attempt on the wire: a response, a timeout
(`requests.exceptions.Timeout`), or a connection-level failure
(`requests.exceptions.ConnectionError`). -/
inductive AttemptOutcome where
  | resp (r : Response)
  | timeout
  | connectionFailure

/-- Retryable status codes configured in `HttpClient.__init__`
(`status_forcelist`, `utils/http.py` line 44). -/
def status_forcelist : List Nat := [429, 500, 502, 503, 504]

/-- Methods the retry strategy applies to (`allowed_methods`,
`utils/http.py` line 45). -/
def allowed_methods : List String :=
  ["HEAD", "GET", "PUT", "DELETE", "OPTIONS", "TRACE", "POST"]

/-- Backoff factor configured in `HttpClient.__init__`
(`backoff_factor=1`, `utils/http.py` line 43). -/
def backoff_factor : Nat := 1

/-- Modelled from the spec: "exponential backoff with a configurable base
factor" — the computed delay before retry number `attempt`. -/
def backoffDelay (factor attempt : Nat) : Nat := factor * 2 ^ attempt

/-- Modelled from the spec: "a `Retry-After` hint from a 429 response, if
present, takes precedence over computed backoff". -/
def retryDelay (factor attempt : Nat) (r : Response) : Nat :=
  if r.status = 429 then
    match r.retryAfter with
    | some ra => ra
    | none => backoffDelay factor attempt
  else backoffDelay factor attempt

/-- Terminal outcome of the retry loop. -/
inductive FinalOutcome where
  | response (r : Response)
  | timeout
  | connectionFailure
deriving Repr

/-- Result of the retry loop: total attempts made, the delay slept before
each retry, and the terminal outcome. -/
structure RunResult where
  attempts : Nat
  delays : List Nat
  final : FinalOutcome
deriving Repr

/-- Modelled from the spec: the retry executor of §4.1 (implemented by the
`urllib3.util.retry.Retry` strategy the source configures, which is not
part of this repository).  "On receiving a response whose status is in the
retryable set {429, 500, 502, 503, 504}, or on a connection-level failure
(timeout, connection refused/reset), the transport retries up to
`max_retries` additional times"; "Only idempotent-safe or explicitly
allow-listed methods are retried"; a response whose "retries are exhausted"
is handed to the outcome classifier.  `server` gives the outcome of each
successive attempt; `retriesLeft` starts at `max_retries`. -/
def runFrom (method : String) (server : Nat → AttemptOutcome) :
    Nat → Nat → RunResult
  | retriesLeft, idx =>
    match server idx with
    | AttemptOutcome.resp r =>
      if r.status ∈ status_forcelist ∧ method ∈ allowed_methods then
        match retriesLeft with
        | 0 => ⟨1, [], FinalOutcome.response r⟩
        | n + 1 =>
          let rest := runFrom method server n (idx + 1)
          ⟨rest.attempts + 1, retryDelay backoff_factor idx r :: rest.delays,
           rest.final⟩
      else ⟨1, [], FinalOutcome.response r⟩
    | AttemptOutcome.timeout =>
      if method ∈ allowed_methods then
        match retriesLeft with
        | 0 => ⟨1, [], FinalOutcome.timeout⟩
        | n + 1 =>
          let rest := runFrom method server n (idx + 1)
          ⟨rest.attempts + 1, backoffDelay backoff_factor idx :: rest.delays,
           rest.final⟩
      else ⟨1, [], FinalOutcome.timeout⟩
    | AttemptOutcome.connectionFailure =>
      if method ∈ allowed_methods then
        match retriesLeft with
        | 0 => ⟨1, [], FinalOutcome.connectionFailure⟩
        | n + 1 =>
          let rest := runFrom method server n (idx + 1)
          ⟨rest.attempts + 1, backoffDelay backoff_factor idx :: rest.delays,
           rest.final⟩
      else ⟨1, [], FinalOutcome.connectionFailure⟩

/-- Outcome of a call into Python code: a returned value, a raised typed
SDK error, or a raised foreign exception (named by its Python class). -/
inductive PyOutcome where
  | ok (v : Json)
  | err (e : ReshADXError)
  | raised (exn : String)
deriving Repr

/-- `cs` starts with `pre`. -/
def startsWithChars : List Char → List Char → Bool
  | [], _ => true
  | _ :: _, [] => false
  | p :: ps, c :: cs => p == c && startsWithChars ps cs

/-- Python substring containment `needle in hay` on strings. -/
def strContainsSub (needle : List Char) : List Char → Bool
  | [] => needle.isEmpty
  | c :: rest => startsWithChars needle (c :: rest) || strContainsSub needle rest

/-- Python `s in xs` for a string `s` and decoded JSON list `xs`: true
exactly when some element equals the string `s`. -/
def jsonStrMem (s : String) : List Json → Bool
  | [] => false
  | Json.str t :: rest => s == t || jsonStrMem s rest
  | _ :: rest => jsonStrMem s rest

/-- The `ServerError` fallback of `_handle_error_response`
(`utils/http.py` line 164): `HTTP {status}: {body}`. -/
def serverFallback (status : Nat) (body : String) : PyOutcome :=
  PyOutcome.err (serverErrorE ("HTTP " ++ toString status ++ ": " ++ body))

/-- The branch structure of `_handle_error_response` on the decoded body
(`none` models the `ValueError` of a failed decode, caught by the
`except ValueError: pass`). -/
def classifyErrorBody (status : Nat) (body : String) : Option Json → PyOutcome
  | none => serverFallback status body
  | some (Json.obj fs) =>
    match List.lookup "error" fs with
    | some (Json.obj efs) =>
      PyOutcome.err (ReshADXError.make
        ((List.lookup "message" efs).getD (Json.str "Unknown error"))
        ((List.lookup "code" efs).getD (Json.str "UNKNOWN_ERROR"))
        status
        (List.lookup "details" efs))
    | some _ => PyOutcome.raised "AttributeError"
    | none => serverFallback status body
  | some (Json.str s) =>
    if strContainsSub "error".data s.data then PyOutcome.raised "TypeError"
    else serverFallback status body
  | some (Json.arr xs) =>
    if jsonStrMem "error" xs then PyOutcome.raised "TypeError"
    else serverFallback status body
  | some _ => PyOutcome.raised "TypeError"

/-- `HttpClient._handle_error_response` (`utils/http.py` lines 148-164).
The body is JSON-decoded; a decode failure (`ValueError`) falls through to
the `ServerError` fallback.  A decoded dict with an `"error"` dict raises
the typed `ReshADXError`; `"error" in error_data` on a non-dict follows
Python `in` semantics (substring test on a string, membership on a list,
`TypeError` otherwise), and subscripting or calling `.get` on a non-dict
`error` value raises the corresponding foreign exception, which no
`except` clause in the source catches. -/
def handle_error_response (r : Response) : PyOutcome :=
  classifyErrorBody r.status r.body (jsonLoads r.body)

/-- The success-envelope unwrapping of `HttpClient.request`
(`utils/http.py` lines 100-104): a dict with a `"data"` key yields that
value, anything else is returned whole. -/
def unwrapData (j : Json) : Json :=
  match j with
  | Json.obj fs =>
    match List.lookup "data" fs with
    | some d => d
    | none => Json.obj fs
  | other => other

/-- The response/exception classification of `HttpClient.request`
(`utils/http.py` lines 83-111): a timeout raises `TIMEOUT_ERROR`, a
connection failure `NETWORK_ERROR`; a response with `response.ok`
(status < 400) is JSON-decoded and unwrapped (a decode failure there is a
`requests` `JSONDecodeError`, a `RequestException`, caught by the final
handler as `NETWORK_ERROR`); any other response goes through
`_handle_error_response`. -/
def classifyFinal (f : FinalOutcome) : PyOutcome :=
  match f with
  | FinalOutcome.timeout =>
    PyOutcome.err (ReshADXError.make (Json.str "Request timed out")
      (Json.str "TIMEOUT_ERROR") 0 none)
  | FinalOutcome.connectionFailure =>
    PyOutcome.err (ReshADXError.make (Json.str "Connection error")
      (Json.str "NETWORK_ERROR") 0 none)
  | FinalOutcome.response r =>
    if r.status < 400 then
      match jsonLoads r.body with
      | some j => PyOutcome.ok (unwrapData j)
      | none =>
        PyOutcome.err (ReshADXError.make (Json.str "Invalid JSON")
          (Json.str "NETWORK_ERROR") 0 none)
    else handle_error_response r

/-! ## Client state (`HttpClient.__init__`, token management) -/

/-- Python dict update of one key: an existing key is overwritten in
place, a new key is appended (`session.headers.update({...})`). -/
def updateHeader (l : List (String × String)) (k v : String) :
    List (String × String) :=
  if (List.lookup k l).isSome then
    l.map (fun p => if p.1 == k then (k, v) else p)
  else l ++ [(k, v)]

/-- The mutable state of `HttpClient` (`utils/http.py` lines 17-59):
configuration, the bearer-token slot, and the session headers. -/
structure HttpClient where
  api_key : String
  access_token : Option String
  base_url : String
  timeout : Nat
  max_retries : Nat
  headers : List (String × String)
deriving Repr

/-- `HttpClient.__init__`: base-URL selection (an explicit truthy
`base_url` wins, else the environment picks production or sandbox), no
token, and the three static default headers. -/
def HttpClient.init (api_key environment : String) (base_url : Option String)
    (timeout max_retries : Nat) : HttpClient :=
  let envUrl := if environment = "production" then "https://api.reshadx.com/v1"
    else "https://sandbox-api.reshadx.com/v1"
  let burl := match base_url with
    | some u => if u = "" then envUrl else u
    | none => envUrl
  HttpClient.mk api_key none burl timeout max_retries
    [("Content-Type", "application/json"), ("X-API-Key", api_key),
     ("User-Agent", "ReshADX-Python-SDK/1.0.0")]

/-- `HttpClient.set_access_token` (`utils/http.py` lines 61-64). -/
def HttpClient.set_access_token (c : HttpClient) (token : String) : HttpClient :=
  HttpClient.mk c.api_key (some token) c.base_url c.timeout c.max_retries
    (updateHeader c.headers "Authorization" ("Bearer " ++ token))

/-- `HttpClient.clear_access_token` (`utils/http.py` lines 66-70): the
`Authorization` entry is deleted if present. -/
def HttpClient.clear_access_token (c : HttpClient) : HttpClient :=
  HttpClient.mk c.api_key none c.base_url c.timeout c.max_retries
    (if (List.lookup "Authorization" c.headers).isSome then
       c.headers.filter (fun p => !(p.1 == "Authorization"))
     else c.headers)

/-- Result of one `HttpClient.request` call: the header snapshot captured
at dispatch, the attempts and delays of the retry loop, and the classified
outcome. -/
structure ExecResult where
  sentHeaders : List (String × String)
  attempts : Nat
  delays : List Nat
  result : PyOutcome
deriving Repr

/-- `HttpClient.request` (`utils/http.py` lines 72-111): runs the retry
loop with the configured `max_retries` and classifies the terminal
outcome.  The session headers current at dispatch are what the request
carries. -/
def HttpClient.request (c : HttpClient) (method : String)
    (server : Nat → AttemptOutcome) : ExecResult :=
  let run := runFrom method server c.max_retries 0
  ⟨c.headers, run.attempts, run.delays, classifyFinal run.final⟩

/-- The operations that touch an `HttpClient` over its lifetime.
`request` performs no assignment to `self` anywhere in its body
(`utils/http.py` lines 72-111), so it leaves the state unchanged. -/
inductive ClientOp where
  | setToken (t : String)
  | clearToken
  | doRequest (method : String) (server : Nat → AttemptOutcome)

def applyOp (c : HttpClient) : ClientOp → HttpClient
  | ClientOp.setToken t => c.set_access_token t
  | ClientOp.clearToken => c.clear_access_token
  | ClientOp.doRequest _ _ => c

def applyOps (c : HttpClient) (ops : List ClientOp) : HttpClient :=
  ops.foldl applyOp c

/-- The token/header coherence invariant: the session headers carry an
`Authorization` entry exactly when a token is stored, and then it is
`Bearer <token>`. -/
def authInvariant (c : HttpClient) : Prop :=
  match c.access_token with
  | some t => List.lookup "Authorization" c.headers = some ("Bearer " ++ t)
  | none => List.lookup "Authorization" c.headers = none

/-! ## Webhook signature verification (`resources/webhooks.py`) -/

/-- `Webhooks.verify_signature` (`resources/webhooks.py` lines 101-114):
computes the hex HMAC-SHA256 of the payload under the secret and compares
it with the supplied signature via `hmac.compare_digest`, which on strings
is (constant-time) equality.  The surrounding `try/except` returning
`False` has no reachable exception here: encoding is total on Lean
strings, and `compare_digest` raising on a non-ASCII `signature` coincides
with inequality against the all-ASCII digest. -/
def Webhooks.verify_signature (payload signature secret : String) : Bool :=
  signature == hmacSha256Hex secret payload

/-- `Webhooks.parse_payload` (`resources/webhooks.py` lines 116-128):
`None` on signature failure, else `json.loads(raw_body)` with any decode
failure converted to `None`. -/
def Webhooks.parse_payload (raw_body signature secret : String) : Option Json :=
  if Webhooks.verify_signature raw_body signature secret then jsonLoads raw_body
  else none

/-! ## Predicates used by the claims -/

/-- The outcome is a raised foreign (non-SDK) exception. -/
def isRaised : PyOutcome → Bool
  | PyOutcome.raised _ => true
  | _ => false

/-- A decoded body `_handle_error_response` survives without raising a
foreign exception: the `"error"` value of a decoded dict, when present,
is itself a dict, and no degenerate decoded value makes the Python
`in`/subscript operations raise. -/
def errorFieldOkAux : Option Json → Bool
  | none => true
  | some (Json.obj fs) =>
    match List.lookup "error" fs with
    | some (Json.obj _) => true
    | some _ => false
    | none => true
  | some (Json.str s) => !(strContainsSub "error".data s.data)
  | some (Json.arr xs) => !(jsonStrMem "error" xs)
  | some _ => false

def errorFieldOk (body : String) : Bool := errorFieldOkAux (jsonLoads body)

def attemptBodyOk : AttemptOutcome → Bool
  | AttemptOutcome.resp r => errorFieldOk r.body
  | _ => true

/-! ## Association-list lemmas for the header map -/

theorem lookup_append_of_none {l l2 : List (String × String)} {k : String}
    (h : List.lookup k l = none) :
    List.lookup k (l ++ l2) = List.lookup k l2 := by
  induction l with
  | nil => rfl
  | cons p tl ih =>
    obtain ⟨a, b⟩ := p
    by_cases hka : k = a
    · subst hka
      simp [List.lookup] at h
    · simp only [List.cons_append, List.lookup,
        beq_eq_false_iff_ne.mpr hka] at h ⊢
      exact ih h

theorem lookup_updateHeader (l : List (String × String)) (k v : String) :
    List.lookup k (updateHeader l k v) = some v := by
  unfold updateHeader
  by_cases h : (List.lookup k l).isSome
  · rw [if_pos h]
    induction l with
    | nil => simp [List.lookup] at h
    | cons p tl ih =>
      obtain ⟨a, b⟩ := p
      by_cases hka : k = a
      · subst hka
        rw [List.map_cons, if_pos (show (((k, b) : String × String).1 == k) = true by simp)]
        simp [List.lookup]
      · have hbeq : (a == k) = false := beq_eq_false_iff_ne.mpr (Ne.symm hka)
        have hbeq2 : (k == a) = false := beq_eq_false_iff_ne.mpr hka
        rw [List.map_cons,
          if_neg (show ¬((((a, b) : String × String).1 == k) = true) by simp [hbeq])]
        simp only [List.lookup, hbeq2] at h ⊢
        exact ih h
  · rw [if_neg h]
    rw [lookup_append_of_none (Option.not_isSome_iff_eq_none.mp h)]
    simp [List.lookup]

theorem lookup_filter_ne (l : List (String × String)) (k : String) :
    List.lookup k (l.filter fun p => !(p.1 == k)) = none := by
  induction l with
  | nil => rfl
  | cons p tl ih =>
    obtain ⟨a, b⟩ := p
    by_cases hak : a = k
    · subst hak
      simpa [List.filter] using ih
    · simp only [List.filter, beq_eq_false_iff_ne.mpr hak]
      simpa [List.lookup, beq_eq_false_iff_ne.mpr (Ne.symm hak)] using ih

theorem lookup_clear_access_token (c : HttpClient) :
    List.lookup "Authorization" c.clear_access_token.headers = none := by
  show List.lookup "Authorization"
    (if (List.lookup "Authorization" c.headers).isSome then
       c.headers.filter (fun p => !(p.1 == "Authorization"))
     else c.headers) = none
  by_cases h : (List.lookup "Authorization" c.headers).isSome
  · rw [if_pos h]
    exact lookup_filter_ne c.headers "Authorization"
  · rw [if_neg h]
    exact Option.not_isSome_iff_eq_none.mp h

/-! ## Retry-loop lemmas -/

theorem runFrom_resp_no_retry (m : String) (server : Nat → AttemptOutcome)
    (k idx : Nat) (r : Response) (hsrv : server idx = AttemptOutcome.resp r)
    (h : ¬(r.status ∈ status_forcelist ∧ m ∈ allowed_methods)) :
    runFrom m server k idx = ⟨1, [], FinalOutcome.response r⟩ := by
  cases k <;> simp [runFrom, hsrv, if_neg h]

theorem runFrom_resp_retry (m : String) (server : Nat → AttemptOutcome)
    (k idx : Nat) (r : Response) (hsrv : server idx = AttemptOutcome.resp r)
    (h : r.status ∈ status_forcelist ∧ m ∈ allowed_methods) :
    runFrom m server (k + 1) idx =
      ⟨(runFrom m server k (idx + 1)).attempts + 1,
       retryDelay backoff_factor idx r :: (runFrom m server k (idx + 1)).delays,
       (runFrom m server k (idx + 1)).final⟩ := by
  simp [runFrom, hsrv, if_pos h]

theorem runFrom_resp_exhausted (m : String) (server : Nat → AttemptOutcome)
    (idx : Nat) (r : Response) (hsrv : server idx = AttemptOutcome.resp r) :
    runFrom m server 0 idx = ⟨1, [], FinalOutcome.response r⟩ := by
  simp [runFrom, hsrv, ite_self]

theorem runFrom_timeout_retry (m : String) (server : Nat → AttemptOutcome)
    (k idx : Nat) (hsrv : server idx = AttemptOutcome.timeout)
    (hm : m ∈ allowed_methods) :
    runFrom m server (k + 1) idx =
      ⟨(runFrom m server k (idx + 1)).attempts + 1,
       backoffDelay backoff_factor idx :: (runFrom m server k (idx + 1)).delays,
       (runFrom m server k (idx + 1)).final⟩ := by
  simp [runFrom, hsrv, if_pos hm]

theorem runFrom_timeout_stop (m : String) (server : Nat → AttemptOutcome)
    (k idx : Nat) (hsrv : server idx = AttemptOutcome.timeout)
    (h : k = 0 ∨ m ∉ allowed_methods) :
    runFrom m server k idx = ⟨1, [], FinalOutcome.timeout⟩ := by
  rcases h with h | h
  · subst h
    simp [runFrom, hsrv, ite_self]
  · cases k <;> simp [runFrom, hsrv, if_neg h]

theorem runFrom_conn_retry (m : String) (server : Nat → AttemptOutcome)
    (k idx : Nat) (hsrv : server idx = AttemptOutcome.connectionFailure)
    (hm : m ∈ allowed_methods) :
    runFrom m server (k + 1) idx =
      ⟨(runFrom m server k (idx + 1)).attempts + 1,
       backoffDelay backoff_factor idx :: (runFrom m server k (idx + 1)).delays,
       (runFrom m server k (idx + 1)).final⟩ := by
  simp [runFrom, hsrv, if_pos hm]

theorem runFrom_conn_stop (m : String) (server : Nat → AttemptOutcome)
    (k idx : Nat) (hsrv : server idx = AttemptOutcome.connectionFailure)
    (h : k = 0 ∨ m ∉ allowed_methods) :
    runFrom m server k idx = ⟨1, [], FinalOutcome.connectionFailure⟩ := by
  rcases h with h | h
  · subst h
    simp [runFrom, hsrv, ite_self]
  · cases k <;> simp [runFrom, hsrv, if_neg h]

/-- A run of `k` retryable failures followed by one non-retryable response
makes `k + 1` attempts and ends on that response. -/
theorem runFrom_all_fail_then_ok (m : String) (failR okR : Response)
    (hs : failR.status ∈ status_forcelist) (hm : m ∈ allowed_methods)
    (hok : okR.status ∉ status_forcelist) :
    ∀ (k idx : Nat) (server : Nat → AttemptOutcome),
      (∀ i, i < k → server (idx + i) = AttemptOutcome.resp failR) →
      server (idx + k) = AttemptOutcome.resp okR →
      (runFrom m server k idx).attempts = k + 1 ∧
      (runFrom m server k idx).final = FinalOutcome.response okR := by
  intro k
  induction k with
  | zero =>
    intro idx server hfail hlast
    have h0 : server idx = AttemptOutcome.resp okR := by simpa using hlast
    rw [runFrom_resp_no_retry m server 0 idx okR h0 (fun hc => hok hc.1)]
    exact ⟨rfl, rfl⟩
  | succ n ih =>
    intro idx server hfail hlast
    have h0 : server idx = AttemptOutcome.resp failR := by
      simpa using hfail 0 (Nat.succ_pos n)
    rw [runFrom_resp_retry m server n idx failR h0 ⟨hs, hm⟩]
    have hr := ih (idx + 1) server
      (fun i hi => by
        have hh := hfail (i + 1) (by omega)
        rwa [show idx + (i + 1) = idx + 1 + i by omega] at hh)
      (by
        have hh := hlast
        rwa [show idx + (n + 1) = idx + 1 + n by omega] at hh)
    exact ⟨by simp [hr.1], hr.2⟩

/-- A run against a server that always answers with the same retryable
failure exhausts the retries: `k + 1` attempts, ending on that response. -/
theorem runFrom_const_fail (m : String) (r : Response)
    (hs : r.status ∈ status_forcelist) (hm : m ∈ allowed_methods) :
    ∀ (k idx : Nat) (server : Nat → AttemptOutcome),
      (∀ i, server i = AttemptOutcome.resp r) →
      (runFrom m server k idx).attempts = k + 1 ∧
      (runFrom m server k idx).final = FinalOutcome.response r := by
  intro k
  induction k with
  | zero =>
    intro idx server hall
    rw [runFrom_resp_exhausted m server idx r (hall idx)]
    exact ⟨rfl, rfl⟩
  | succ n ih =>
    intro idx server hall
    rw [runFrom_resp_retry m server n idx r (hall idx) ⟨hs, hm⟩]
    have hr := ih (idx + 1) server hall
    exact ⟨by simp [hr.1], hr.2⟩

/-- Every terminal outcome of the retry loop is a timeout, a connection
failure, or a response the server actually produced. -/
theorem runFrom_final_sources (m : String) (server : Nat → AttemptOutcome) :
    ∀ (k idx : Nat),
      (runFrom m server k idx).final = FinalOutcome.timeout ∨
      (runFrom m server k idx).final = FinalOutcome.connectionFailure ∨
      ∃ i r, server i = AttemptOutcome.resp r ∧
        (runFrom m server k idx).final = FinalOutcome.response r := by
  intro k
  induction k with
  | zero =>
    intro idx
    cases hsrv : server idx with
    | resp r =>
      rw [runFrom_resp_exhausted m server idx r hsrv]
      exact Or.inr (Or.inr ⟨idx, r, hsrv, rfl⟩)
    | timeout =>
      rw [runFrom_timeout_stop m server 0 idx hsrv (Or.inl rfl)]
      exact Or.inl rfl
    | connectionFailure =>
      rw [runFrom_conn_stop m server 0 idx hsrv (Or.inl rfl)]
      exact Or.inr (Or.inl rfl)
  | succ n ih =>
    intro idx
    cases hsrv : server idx with
    | resp r =>
      by_cases hc : r.status ∈ status_forcelist ∧ m ∈ allowed_methods
      · rw [runFrom_resp_retry m server n idx r hsrv hc]
        exact ih (idx + 1)
      · rw [runFrom_resp_no_retry m server (n + 1) idx r hsrv hc]
        exact Or.inr (Or.inr ⟨idx, r, hsrv, rfl⟩)
    | timeout =>
      by_cases hmem : m ∈ allowed_methods
      · rw [runFrom_timeout_retry m server n idx hsrv hmem]
        exact ih (idx + 1)
      · rw [runFrom_timeout_stop m server (n + 1) idx hsrv (Or.inr hmem)]
        exact Or.inl rfl
    | connectionFailure =>
      by_cases hmem : m ∈ allowed_methods
      · rw [runFrom_conn_retry m server n idx hsrv hmem]
        exact ih (idx + 1)
      · rw [runFrom_conn_stop m server (n + 1) idx hsrv (Or.inr hmem)]
        exact Or.inr (Or.inl rfl)

/-! ## Claims -/

/-- Claim C1: for every retryable status code in {429, 500, 502, 503,
504}, if the server returns a sequence of `max_retries` such failure
responses followed by one success response, `request` returns the success
payload and exactly `max_retries + 1` attempts are made in total. -/
theorem c1_retry_to_success (n s : Nat) (m failBody succBody : String)
    (ra : Option Nat) (j : Json)
    (hs : s ∈ status_forcelist) (hm : m ∈ allowed_methods)
    (hp : jsonLoads succBody = some j) :
    ((HttpClient.init "key" "production" none 30 n).request m
        (fun i => if i < n then AttemptOutcome.resp ⟨s, ra, failBody⟩
          else AttemptOutcome.resp ⟨200, none, succBody⟩)).attempts = n + 1 ∧
    ((HttpClient.init "key" "production" none 30 n).request m
        (fun i => if i < n then AttemptOutcome.resp ⟨s, ra, failBody⟩
          else AttemptOutcome.resp ⟨200, none, succBody⟩)).result =
      PyOutcome.ok (unwrapData j) := by
  have h200 : (⟨200, none, succBody⟩ : Response).status ∉ status_forcelist := by
    simp [status_forcelist]
  have hrun := runFrom_all_fail_then_ok m ⟨s, ra, failBody⟩ ⟨200, none, succBody⟩
    hs hm h200 n 0
    (fun i => if i < n then AttemptOutcome.resp ⟨s, ra, failBody⟩
      else AttemptOutcome.resp ⟨200, none, succBody⟩)
    (fun i hi => by simp [Nat.zero_add, if_pos hi])
    (by simp)
  refine ⟨?_, ?_⟩
  · show (runFrom m _ (HttpClient.init "key" "production" none 30 n).max_retries
      0).attempts = n + 1
    exact hrun.1
  · show classifyFinal (runFrom m _
      (HttpClient.init "key" "production" none 30 n).max_retries 0).final =
      PyOutcome.ok (unwrapData j)
    rw [show (HttpClient.init "key" "production" none 30 n).max_retries = n
      from rfl, hrun.2]
    simp [classifyFinal, hp]

/-- Claim C2: for every non-retryable error status (for example 400 and
404), a single call to `request` makes exactly one HTTP attempt and
raises a typed error whose `code` matches the error envelope and whose
`status_code` matches the response status. -/
theorem c2_non_retryable_one_attempt (m : String) (status : Nat)
    (body : String) (fs efs : List (String × Json)) (code : Json)
    (hge : 400 ≤ status) (hnr : status ∉ status_forcelist)
    (hp : jsonLoads body = some (Json.obj fs))
    (he : List.lookup "error" fs = some (Json.obj efs))
    (hc : List.lookup "code" efs = some code) :
    ((HttpClient.init "key" "production" none 30 3).request m
        (fun _ => AttemptOutcome.resp ⟨status, none, body⟩)).attempts = 1 ∧
    ∃ e, ((HttpClient.init "key" "production" none 30 3).request m
        (fun _ => AttemptOutcome.resp ⟨status, none, body⟩)).result =
          PyOutcome.err e ∧
      e.code = code ∧ e.status_code = status := by
  have hrw := runFrom_resp_no_retry m
    (fun _ => AttemptOutcome.resp ⟨status, none, body⟩)
    (HttpClient.init "key" "production" none 30 3).max_retries 0
    ⟨status, none, body⟩ rfl (fun hc2 => hnr hc2.1)
  refine ⟨?_, ?_⟩
  · show (runFrom m _ _ 0).attempts = 1
    rw [hrw]
  · show ∃ e, classifyFinal (runFrom m _ _ 0).final = PyOutcome.err e ∧
      e.code = code ∧ e.status_code = status
    rw [hrw]
    refine ⟨ReshADXError.make
      ((List.lookup "message" efs).getD (Json.str "Unknown error"))
      ((List.lookup "code" efs).getD (Json.str "UNKNOWN_ERROR"))
      status (List.lookup "details" efs), ?_, ?_, rfl⟩
    · simp [classifyFinal, if_neg (by omega : ¬ status < 400),
        handle_error_response, classifyErrorBody, hp, he]
    · simp [ReshADXError.make, hc]

/-- Claim C3: a non-success response that cannot be retried, or whose
retries are exhausted, is classified from its error envelope: an `error`
object yields a typed error carrying that envelope's code, message and
details with the response status as `status_code`; an unparsable body or
one without an `error` key yields the generic server error carrying the
raw status and body text. -/
theorem c3_error_envelope_classification :
    (∀ (m : String) (status : Nat) (body : String)
        (fs efs : List (String × Json)) (code msg det : Json),
       400 ≤ status → status ∉ status_forcelist →
       jsonLoads body = some (Json.obj fs) →
       List.lookup "error" fs = some (Json.obj efs) →
       List.lookup "code" efs = some code →
       List.lookup "message" efs = some msg →
       List.lookup "details" efs = some det → pyTruthy det = true →
       ((HttpClient.init "key" "production" none 30 3).request m
           (fun _ => AttemptOutcome.resp ⟨status, none, body⟩)).result =
         PyOutcome.err ⟨msg, code, status, det⟩) ∧
    (∀ (m : String) (n status : Nat) (body : String)
        (fs efs : List (String × Json)) (code msg det : Json),
       m ∈ allowed_methods → status ∈ status_forcelist →
       jsonLoads body = some (Json.obj fs) →
       List.lookup "error" fs = some (Json.obj efs) →
       List.lookup "code" efs = some code →
       List.lookup "message" efs = some msg →
       List.lookup "details" efs = some det → pyTruthy det = true →
       ((HttpClient.init "key" "production" none 30 n).request m
           (fun _ => AttemptOutcome.resp ⟨status, none, body⟩)).attempts =
           n + 1 ∧
       ((HttpClient.init "key" "production" none 30 n).request m
           (fun _ => AttemptOutcome.resp ⟨status, none, body⟩)).result =
         PyOutcome.err ⟨msg, code, status, det⟩) ∧
    (∀ (m : String) (status : Nat) (body : String),
       400 ≤ status → status ∉ status_forcelist →
       (jsonLoads body = none ∨
         ∃ fs, jsonLoads body = some (Json.obj fs) ∧
           List.lookup "error" fs = none) →
       ((HttpClient.init "key" "production" none 30 3).request m
           (fun _ => AttemptOutcome.resp ⟨status, none, body⟩)).result =
         PyOutcome.err
           (serverErrorE ("HTTP " ++ toString status ++ ": " ++ body))) := by
  refine ⟨?_, ?_, ?_⟩
  · intro m status body fs efs code msg det h4 hnr hp he hc hmsg hdet htr
    have hrw := runFrom_resp_no_retry m
      (fun _ => AttemptOutcome.resp ⟨status, none, body⟩)
      (HttpClient.init "key" "production" none 30 3).max_retries 0
      ⟨status, none, body⟩ rfl (fun hc2 => hnr hc2.1)
    show classifyFinal (runFrom m _ _ 0).final = _
    rw [hrw]
    simp [classifyFinal, if_neg (by omega : ¬ status < 400),
      handle_error_response, classifyErrorBody, hp, he, hc, hmsg, hdet,
      ReshADXError.make, htr]
  · intro m n status body fs efs code msg det hm hfl hp he hc hmsg hdet htr
    have hrun := runFrom_const_fail m ⟨status, none, body⟩ hfl hm n 0
      (fun _ => AttemptOutcome.resp ⟨status, none, body⟩) (fun _ => rfl)
    have h4 : 400 ≤ status := by
      simp only [status_forcelist, List.mem_cons, List.mem_singleton,
        List.not_mem_nil, or_false] at hfl
      rcases hfl with h | h | h | h | h <;> omega
    refine ⟨?_, ?_⟩
    · show (runFrom m _ _ 0).attempts = n + 1
      exact hrun.1
    · show classifyFinal (runFrom m _ _ 0).final = _
      rw [show (HttpClient.init "key" "production" none 30 n).max_retries = n
        from rfl, hrun.2]
      simp [classifyFinal, if_neg (by omega : ¬ status < 400),
        handle_error_response, classifyErrorBody, hp, he, hc, hmsg, hdet,
        ReshADXError.make, htr]
  · intro m status body h4 hnr hcase
    have hrw := runFrom_resp_no_retry m
      (fun _ => AttemptOutcome.resp ⟨status, none, body⟩)
      (HttpClient.init "key" "production" none 30 3).max_retries 0
      ⟨status, none, body⟩ rfl (fun hc2 => hnr hc2.1)
    show classifyFinal (runFrom m _ _ 0).final = _
    rw [hrw]
    rcases hcase with hp | ⟨fs, hp, he⟩
    · simp [classifyFinal, if_neg (by omega : ¬ status < 400),
        handle_error_response, classifyErrorBody, serverFallback, hp]
    · simp [classifyFinal, if_neg (by omega : ¬ status < 400),
        handle_error_response, classifyErrorBody, serverFallback, hp, he]

/-- Claim C4: every 2xx response is JSON-decoded; a decoded object with a
`data` key yields exactly the value under `data`, and any other decoded
value is returned whole. -/
theorem c4_success_unwrapping :
    (∀ (m : String) (status : Nat) (body : String)
        (fs : List (String × Json)) (d : Json),
       200 ≤ status → status ≤ 299 →
       jsonLoads body = some (Json.obj fs) →
       List.lookup "data" fs = some d →
       ((HttpClient.init "key" "production" none 30 3).request m
           (fun _ => AttemptOutcome.resp ⟨status, none, body⟩)).result =
         PyOutcome.ok d) ∧
    (∀ (m : String) (status : Nat) (body : String) (j : Json),
       200 ≤ status → status ≤ 299 →
       jsonLoads body = some j →
       (∀ fs, j = Json.obj fs → List.lookup "data" fs = none) →
       ((HttpClient.init "key" "production" none 30 3).request m
           (fun _ => AttemptOutcome.resp ⟨status, none, body⟩)).result =
         PyOutcome.ok j) := by
  have hnotfl : ∀ status : Nat, status ≤ 299 → status ∉ status_forcelist := by
    intro status hle hmem
    simp only [status_forcelist, List.mem_cons, List.mem_singleton,
      List.not_mem_nil, or_false] at hmem
    rcases hmem with h | h | h | h | h <;> omega
  refine ⟨?_, ?_⟩
  · intro m status body fs d h2 h2b hp hd
    have hrw := runFrom_resp_no_retry m
      (fun _ => AttemptOutcome.resp ⟨status, none, body⟩)
      (HttpClient.init "key" "production" none 30 3).max_retries 0
      ⟨status, none, body⟩ rfl (fun hc2 => hnotfl status h2b hc2.1)
    show classifyFinal (runFrom m _ _ 0).final = _
    rw [hrw]
    simp [classifyFinal, if_pos (by omega : status < 400), hp, unwrapData, hd]
  · intro m status body j h2 h2b hp hnd
    have hrw := runFrom_resp_no_retry m
      (fun _ => AttemptOutcome.resp ⟨status, none, body⟩)
      (HttpClient.init "key" "production" none 30 3).max_retries 0
      ⟨status, none, body⟩ rfl (fun hc2 => hnotfl status h2b hc2.1)
    show classifyFinal (runFrom m _ _ 0).final = _
    rw [hrw]
    have hun : unwrapData j = j := by
      cases hj : j with
      | obj fs => simp [unwrapData, hnd fs hj]
      | null => rfl
      | bool b => rfl
      | num n => rfl
      | str s => rfl
      | arr xs => rfl
    simp [classifyFinal, if_pos (by omega : status < 400), hp, hun]

/-- Claim C5: `verify_signature` is true exactly when the signature equals
the hex HMAC-SHA256 of the payload under the secret; consequently a
changed signature fails, and a changed payload or secret fails whenever
the corresponding digests differ (demonstrated on concrete single-character
flips in the witness). -/
theorem c5_verify_signature_characterization :
    (∀ p s k, Webhooks.verify_signature p s k = true ↔ s = hmacSha256Hex k p) ∧
    (∀ p s s2 k, Webhooks.verify_signature p s k = true → s2 ≠ s →
      Webhooks.verify_signature p s2 k = false) ∧
    (∀ p p2 s k, Webhooks.verify_signature p s k = true →
      hmacSha256Hex k p2 ≠ hmacSha256Hex k p →
      Webhooks.verify_signature p2 s k = false) ∧
    (∀ p s k k2, Webhooks.verify_signature p s k = true →
      hmacSha256Hex k2 p ≠ hmacSha256Hex k p →
      Webhooks.verify_signature p s k2 = false) := by
  refine ⟨?_, ?_, ?_, ?_⟩
  · intro p s k
    exact beq_iff_eq
  · intro p s s2 k h hne
    have hs : s = hmacSha256Hex k p := beq_iff_eq.mp h
    show (s2 == hmacSha256Hex k p) = false
    exact beq_eq_false_iff_ne.mpr (fun he => hne (he.trans hs.symm))
  · intro p p2 s k h hne
    have hs : s = hmacSha256Hex k p := beq_iff_eq.mp h
    show (s == hmacSha256Hex k p2) = false
    exact beq_eq_false_iff_ne.mpr (fun he => hne (he.symm.trans hs))
  · intro p s k k2 h hne
    have hs : s = hmacSha256Hex k p := beq_iff_eq.mp h
    show (s == hmacSha256Hex k2 p) = false
    exact beq_eq_false_iff_ne.mpr (fun he => hne (he.symm.trans hs))

/-- Claim C6: `parse_payload` returns `none` when signature verification
fails (even on valid JSON), returns `none` when verification succeeds but
the body is not valid JSON, and otherwise returns the decoded body. -/
theorem c6_parse_payload_null_cases (raw sig k : String) :
    (Webhooks.verify_signature raw sig k = false →
      Webhooks.parse_payload raw sig k = none) ∧
    (Webhooks.verify_signature raw sig k = true → jsonLoads raw = none →
      Webhooks.parse_payload raw sig k = none) ∧
    (∀ j, Webhooks.verify_signature raw sig k = true →
      jsonLoads raw = some j → Webhooks.parse_payload raw sig k = some j) := by
  refine ⟨?_, ?_, ?_⟩
  · intro h
    simp [Webhooks.parse_payload, h]
  · intro h hj
    simp [Webhooks.parse_payload, h, hj]
  · intro j h hj
    simp [Webhooks.parse_payload, h, hj]

/-- Claim C7: a request issued after `clear_access_token` carries no
`Authorization` header; a request issued after `set_access_token t`
carries `Authorization: Bearer t`; setting then clearing restores the
no-token state; and the absence of a token does not change the transport
outcome (no transport-level error from a missing token). -/
theorem c7_token_set_clear_requests :
    (∀ (cl : HttpClient) (m : String) (server : Nat → AttemptOutcome),
       List.lookup "Authorization"
         (cl.clear_access_token.request m server).sentHeaders = none) ∧
    (∀ (cl : HttpClient) (t m : String) (server : Nat → AttemptOutcome),
       List.lookup "Authorization"
         ((cl.set_access_token t).request m server).sentHeaders =
         some ("Bearer " ++ t)) ∧
    (∀ (cl : HttpClient) (t : String),
       (cl.set_access_token t).clear_access_token.access_token = none ∧
       List.lookup "Authorization"
         (cl.set_access_token t).clear_access_token.headers = none) ∧
    (∀ (cl : HttpClient) (m : String) (server : Nat → AttemptOutcome),
       (cl.clear_access_token.request m server).result =
         (cl.request m server).result) := by
  refine ⟨?_, ?_, ?_, ?_⟩
  · intro cl m server
    exact lookup_clear_access_token cl
  · intro cl t m server
    exact lookup_updateHeader cl.headers "Authorization" ("Bearer " ++ t)
  · intro cl t
    exact ⟨rfl, lookup_clear_access_token (cl.set_access_token t)⟩
  · intro cl m server
    rfl

/-- `_handle_error_response` does not raise a foreign exception on a
decoded body that passes `errorFieldOkAux`. -/
theorem classifyErrorBody_no_raise (status : Nat) (body : String)
    (o : Option Json) (h : errorFieldOkAux o = true) :
    isRaised (classifyErrorBody status body o) = false := by
  cases o with
  | none => rfl
  | some j =>
    cases j with
    | null => simp [errorFieldOkAux] at h
    | bool b => simp [errorFieldOkAux] at h
    | num n => simp [errorFieldOkAux] at h
    | str s =>
      simp only [errorFieldOkAux, Bool.not_eq_true'] at h
      simp [classifyErrorBody, h, serverFallback, isRaised]
    | arr xs =>
      simp only [errorFieldOkAux, Bool.not_eq_true'] at h
      simp [classifyErrorBody, h, serverFallback, isRaised]
    | obj fs =>
      simp only [errorFieldOkAux] at h
      cases hl : List.lookup "error" fs with
      | none => simp [classifyErrorBody, hl, serverFallback, isRaised]
      | some v =>
        rw [hl] at h
        cases v with
        | obj efs => simp [classifyErrorBody, hl, isRaised]
        | null => simp at h
        | bool b => simp at h
        | num n => simp at h
        | str s => simp at h
        | arr xs => simp at h

theorem handle_error_no_raise (r : Response) (h : errorFieldOk r.body = true) :
    isRaised (handle_error_response r) = false :=
  classifyErrorBody_no_raise r.status r.body (jsonLoads r.body) h

/-- `classifyFinal` raises no foreign exception when every terminal
response body passes `errorFieldOk`. -/
theorem classify_no_raise (f : FinalOutcome)
    (h : ∀ r, f = FinalOutcome.response r → errorFieldOk r.body = true) :
    isRaised (classifyFinal f) = false := by
  cases f with
  | timeout => rfl
  | connectionFailure => rfl
  | response r =>
    by_cases h4 : r.status < 400
    · simp only [classifyFinal, if_pos h4]
      cases hj : jsonLoads r.body <;> simp [isRaised]
    · simp only [classifyFinal, if_neg h4]
      exact handle_error_no_raise r (h r rfl)

/-- Claim C8 (amended): provided every response body the server can
produce has an `error` value that is an object when present (and no
degenerate body that makes the Python `in`/subscript raise), every failure
of `request` surfaces as exactly one typed error — `TIMEOUT_ERROR` for a
timeout, `NETWORK_ERROR` for a connection-level failure, a structured API
error otherwise — and no call modifies the stored bearer token. -/
theorem c8_typed_errors_amended (cl : HttpClient) (m : String)
    (server : Nat → AttemptOutcome)
    (hb : ∀ i, attemptBodyOk (server i) = true) :
    isRaised (cl.request m server).result = false ∧
    applyOp cl (ClientOp.doRequest m server) = cl ∧
    ((runFrom m server cl.max_retries 0).final = FinalOutcome.timeout →
      (cl.request m server).result =
        PyOutcome.err (ReshADXError.make (Json.str "Request timed out")
          (Json.str "TIMEOUT_ERROR") 0 none)) ∧
    ((runFrom m server cl.max_retries 0).final =
        FinalOutcome.connectionFailure →
      (cl.request m server).result =
        PyOutcome.err (ReshADXError.make (Json.str "Connection error")
          (Json.str "NETWORK_ERROR") 0 none)) := by
  refine ⟨?_, rfl, ?_, ?_⟩
  · show isRaised
      (classifyFinal (runFrom m server cl.max_retries 0).final) = false
    apply classify_no_raise
    intro r hr
    rcases runFrom_final_sources m server cl.max_retries 0 with
      h | h | ⟨i, r2, hsrv, hfin⟩
    · rw [hr] at h
      cases h
    · rw [hr] at h
      cases h
    · rw [hr] at hfin
      have hrr : r = r2 := by
        cases hfin
        rfl
      have hbi := hb i
      rw [hsrv] at hbi
      rw [hrr]
      simpa [attemptBodyOk] using hbi
  · intro hfin
    show classifyFinal (runFrom m server cl.max_retries 0).final = _
    rw [hfin]
    rfl
  · intro hfin
    show classifyFinal (runFrom m server cl.max_retries 0).final = _
    rw [hfin]
    rfl

/-- Claim C8 counterexample: a 400 response whose envelope has a string
(not an object) under `error` makes `request` raise a foreign
`AttributeError` (Python: `'str' object has no attribute 'get'`), not a
typed error — so not every failure surfaces as a typed error. -/
theorem c8_counterexample :
    ((HttpClient.init "key" "production" none 30 3).request "GET"
        (fun _ => AttemptOutcome.resp
          ⟨400, none, "\x7b\"error\": \"oops\"\x7d"⟩)).result =
      PyOutcome.raised "AttributeError" := by
  rfl

/-- Claim C9: a 429 response carrying `Retry-After: 2` delays the next
attempt by at least 2 time units, and the `Retry-After` hint takes
precedence over the computed backoff for every backoff factor and attempt
index. -/
theorem c9_retry_after_precedence (n : Nat) (m body : String)
    (server : Nat → AttemptOutcome) (hm : m ∈ allowed_methods)
    (h0 : server 0 = AttemptOutcome.resp ⟨429, some 2, body⟩) :
    (∃ d rest, (runFrom m server (n + 1) 0).delays = d :: rest ∧ 2 ≤ d) ∧
    (∀ (factor attempt : Nat) (b2 : String),
      retryDelay factor attempt ⟨429, some 2, b2⟩ = 2) := by
  constructor
  · rw [runFrom_resp_retry m server n 0 ⟨429, some 2, body⟩ h0
      ⟨by simp [status_forcelist], hm⟩]
    exact ⟨2, (runFrom m server n 1).delays, rfl, le_refl 2⟩
  · intro factor attempt b2
    rfl

/-- Claim C10: the invariant that the session headers contain an
`Authorization` entry exactly when a token is stored — and then equal to
`Bearer <token>` — holds after any sequence of client operations starting
from construction. -/
theorem c10_auth_header_invariant (api_key environment : String)
    (base_url : Option String) (timeout max_retries : Nat)
    (ops : List ClientOp) :
    authInvariant (applyOps
      (HttpClient.init api_key environment base_url timeout max_retries)
      ops) := by
  have hstep : ∀ (c : HttpClient) (op : ClientOp),
      authInvariant c → authInvariant (applyOp c op) := by
    intro c op h
    cases op with
    | setToken t =>
      show List.lookup "Authorization"
        (updateHeader c.headers "Authorization" ("Bearer " ++ t)) =
        some ("Bearer " ++ t)
      exact lookup_updateHeader c.headers "Authorization" ("Bearer " ++ t)
    | clearToken =>
      show List.lookup "Authorization" c.clear_access_token.headers = none
      exact lookup_clear_access_token c
    | doRequest m server => exact h
  have hinit : authInvariant
      (HttpClient.init api_key environment base_url timeout max_retries) := by
    show List.lookup "Authorization"
      (HttpClient.init api_key environment base_url timeout
        max_retries).headers = none
    rfl
  suffices hall : ∀ (c : HttpClient), authInvariant c →
      authInvariant (applyOps c ops) from
    hall _ hinit
  intro c hc
  induction ops generalizing c with
  | nil => exact hc
  | cons op rest ih => exact ih (applyOp c op) (hstep c op hc)

/-! ## Witnesses: each hypothesis-bearing claim theorem applied at a
concrete input -/

theorem c1_witness :
    ((HttpClient.init "key" "production" none 30 2).request "GET"
        (fun i => if i < 2 then AttemptOutcome.resp ⟨429, none, "fail"⟩
          else AttemptOutcome.resp
            ⟨200, none, "\x7b\"data\": \x7b\"ok\": true\x7d\x7d"⟩)).attempts =
      3 ∧
    ((HttpClient.init "key" "production" none 30 2).request "GET"
        (fun i => if i < 2 then AttemptOutcome.resp ⟨429, none, "fail"⟩
          else AttemptOutcome.resp
            ⟨200, none, "\x7b\"data\": \x7b\"ok\": true\x7d\x7d"⟩)).result =
      PyOutcome.ok (Json.obj [("ok", Json.bool true)]) :=
  c1_retry_to_success 2 429 "GET" "fail" "\x7b\"data\": \x7b\"ok\": true\x7d\x7d"
    none (Json.obj [("data", Json.obj [("ok", Json.bool true)])])
    (by decide) (by decide) rfl

theorem c2_witness :
    ((HttpClient.init "key" "production" none 30 3).request "GET"
        (fun _ => AttemptOutcome.resp ⟨404, none,
          "\x7b\"error\": \x7b\"code\": \"NOT_FOUND\", \"message\": \"Account not found\"\x7d\x7d"⟩)).attempts =
      1 ∧
    ∃ e, ((HttpClient.init "key" "production" none 30 3).request "GET"
        (fun _ => AttemptOutcome.resp ⟨404, none,
          "\x7b\"error\": \x7b\"code\": \"NOT_FOUND\", \"message\": \"Account not found\"\x7d\x7d"⟩)).result =
        PyOutcome.err e ∧
      e.code = Json.str "NOT_FOUND" ∧ e.status_code = 404 :=
  c2_non_retryable_one_attempt "GET" 404
    "\x7b\"error\": \x7b\"code\": \"NOT_FOUND\", \"message\": \"Account not found\"\x7d\x7d"
    [("error", Json.obj [("code", Json.str "NOT_FOUND"),
      ("message", Json.str "Account not found")])]
    [("code", Json.str "NOT_FOUND"), ("message", Json.str "Account not found")]
    (Json.str "NOT_FOUND") (by decide) (by decide) rfl rfl rfl

theorem c3_witness :
    ((HttpClient.init "key" "production" none 30 3).request "GET"
        (fun _ => AttemptOutcome.resp ⟨404, none,
          "\x7b\"error\": \x7b\"code\": \"NOT_FOUND\", \"message\": \"gone\", \"details\": \x7b\"k\": 1\x7d\x7d\x7d"⟩)).result =
      PyOutcome.err ⟨Json.str "gone", Json.str "NOT_FOUND", 404,
        Json.obj [("k", Json.num 1)]⟩ ∧
    ((HttpClient.init "key" "production" none 30 3).request "GET"
        (fun _ => AttemptOutcome.resp ⟨400, none, "not json"⟩)).result =
      PyOutcome.err (serverErrorE ("HTTP " ++ toString 400 ++ ": " ++ "not json")) :=
  ⟨c3_error_envelope_classification.1 "GET" 404
    "\x7b\"error\": \x7b\"code\": \"NOT_FOUND\", \"message\": \"gone\", \"details\": \x7b\"k\": 1\x7d\x7d\x7d"
    [("error", Json.obj [("code", Json.str "NOT_FOUND"),
      ("message", Json.str "gone"),
      ("details", Json.obj [("k", Json.num 1)])])]
    [("code", Json.str "NOT_FOUND"), ("message", Json.str "gone"),
      ("details", Json.obj [("k", Json.num 1)])]
    (Json.str "NOT_FOUND") (Json.str "gone") (Json.obj [("k", Json.num 1)])
    (by decide) (by decide) rfl rfl rfl rfl rfl rfl,
   c3_error_envelope_classification.2.2 "GET" 400 "not json"
    (by decide) (by decide) (Or.inl rfl)⟩

theorem c4_witness :
    ((HttpClient.init "key" "production" none 30 3).request "GET"
        (fun _ => AttemptOutcome.resp ⟨200, none, "\x7b\"data\": 7\x7d"⟩)).result =
      PyOutcome.ok (Json.num 7) ∧
    ((HttpClient.init "key" "production" none 30 3).request "GET"
        (fun _ => AttemptOutcome.resp ⟨204, none, "[1]"⟩)).result =
      PyOutcome.ok (Json.arr [Json.num 1]) :=
  ⟨c4_success_unwrapping.1 "GET" 200 "\x7b\"data\": 7\x7d" [("data", Json.num 7)]
    (Json.num 7) (by decide) (by decide) rfl rfl,
   c4_success_unwrapping.2 "GET" 204 "[1]" (Json.arr [Json.num 1])
    (by decide) (by decide) rfl
    (fun fs h => by cases h)⟩

set_option maxRecDepth 1000000 in
set_option maxHeartbeats 4000000 in
theorem c5_witness :
    Webhooks.verify_signature "a"
      "78da91511e675587f5b9df78bedebaf5560da2abb88162ee875dcdf744951d9e"
      "k" = true ∧
    Webhooks.verify_signature "a"
      "08da91511e675587f5b9df78bedebaf5560da2abb88162ee875dcdf744951d9e"
      "k" = false ∧
    Webhooks.verify_signature "b"
      "78da91511e675587f5b9df78bedebaf5560da2abb88162ee875dcdf744951d9e"
      "k" = false ∧
    Webhooks.verify_signature "a"
      "78da91511e675587f5b9df78bedebaf5560da2abb88162ee875dcdf744951d9e"
      "K" = false :=
  ⟨(c5_verify_signature_characterization.1 "a"
      "78da91511e675587f5b9df78bedebaf5560da2abb88162ee875dcdf744951d9e"
      "k").mpr (by rfl),
   c5_verify_signature_characterization.2.1 "a"
      "78da91511e675587f5b9df78bedebaf5560da2abb88162ee875dcdf744951d9e"
      "08da91511e675587f5b9df78bedebaf5560da2abb88162ee875dcdf744951d9e"
      "k" (by rfl) (by decide),
   c5_verify_signature_characterization.2.2.1 "a" "b"
      "78da91511e675587f5b9df78bedebaf5560da2abb88162ee875dcdf744951d9e"
      "k" (by rfl) (by decide),
   c5_verify_signature_characterization.2.2.2 "a"
      "78da91511e675587f5b9df78bedebaf5560da2abb88162ee875dcdf744951d9e"
      "k" "K" (by rfl) (by decide)⟩

set_option maxRecDepth 1000000 in
set_option maxHeartbeats 4000000 in
theorem c6_witness :
    Webhooks.parse_payload "\x7b\x7d" "deadbeef" "k" = none ∧
    Webhooks.parse_payload "x"
      "c38edc8815c8489f64738978f44008f8596345545f0baa68ef6fcf5c53e57189"
      "k" = none ∧
    Webhooks.parse_payload "\x7b\x7d"
      "add853b103fbcc936a194f9eb15e29c4ff08af6e47d5d1bca4f20218e31e4fff"
      "k" = some (Json.obj []) :=
  ⟨(c6_parse_payload_null_cases "\x7b\x7d" "deadbeef" "k").1 (by decide),
   (c6_parse_payload_null_cases "x"
      "c38edc8815c8489f64738978f44008f8596345545f0baa68ef6fcf5c53e57189"
      "k").2.1 (by rfl) rfl,
   (c6_parse_payload_null_cases "\x7b\x7d"
      "add853b103fbcc936a194f9eb15e29c4ff08af6e47d5d1bca4f20218e31e4fff"
      "k").2.2 (Json.obj []) (by rfl) rfl⟩

theorem c8_witness :
    isRaised ((HttpClient.init "key" "production" none 30 3).request "GET"
      (fun _ => AttemptOutcome.timeout)).result = false ∧
    ((HttpClient.init "key" "production" none 30 3).request "GET"
      (fun _ => AttemptOutcome.timeout)).result =
      PyOutcome.err (ReshADXError.make (Json.str "Request timed out")
        (Json.str "TIMEOUT_ERROR") 0 none) :=
  ⟨(c8_typed_errors_amended (HttpClient.init "key" "production" none 30 3)
      "GET" (fun _ => AttemptOutcome.timeout) (fun _ => rfl)).1,
   (c8_typed_errors_amended (HttpClient.init "key" "production" none 30 3)
      "GET" (fun _ => AttemptOutcome.timeout) (fun _ => rfl)).2.2.1 rfl⟩

theorem c9_witness :
    ∃ d rest,
      (runFrom "GET" (fun _ => AttemptOutcome.resp ⟨429, some 2, "slow"⟩)
        1 0).delays = d :: rest ∧ 2 ≤ d :=
  (c9_retry_after_precedence 0 "GET" "slow"
    (fun _ => AttemptOutcome.resp ⟨429, some 2, "slow"⟩)
    (by decide) rfl).1

end ReshADX
